import Mathlib

/-!
Shallow embedding of the user-account views of the StackOverFlow-Clone
repository (`stackoverflow_clone/users/views.py`).

The database is modelled as a `List User`; `save()` on an ORM instance is
`saveUser` (replace the row with the same id).  Asynchronous e-mail tasks
enqueued via `delay_on_commit` are collected in a `List EmailTask` returned
by each handler: they are the tasks that run after the enclosing database
transaction commits.  External object-store deletions and row deletions
performed by `destroy` are recorded, in order, in a `List Event`.

Collaborators whose code is not part of the repository snapshot
(`JWT_token.get_user`, `services.register`, the token library's refresh-token
blacklist) are modelled from the specification; each such definition carries
a doc comment saying so.
-/

namespace StackOverflowClone

/-- A `User` row.  The one-to-one `Profile`'s only relevant attribute, the
optional avatar object key, is inlined as the `avatar` field. -/
structure User where
  id : Nat
  username : String
  email : String
  password : String
  is_active : Bool
  avatar : Option String
  deriving Repr, DecidableEq

/-- An HTTP response: status code and body. -/
structure Response where
  code : Nat
  body : String
  deriving Repr, DecidableEq

/-- An asynchronous e-mail task, the arguments of
`send_verification_email.delay_on_commit(email, user_id, purpose, subject)`. -/
structure EmailTask where
  address : String
  user_id : Nat
  purpose : String
  subject : String
  deriving Repr, DecidableEq

/-- Result of the Token Verifier: either the resolved `User` or a
response-shaped failure object (never an exception). -/
inductive TokenResult where
  | user (u : User)
  | failure (r : Response)
  deriving Repr, DecidableEq

/-- A signed single-purpose token as the spec describes it: a user id, a
purpose tag, and validity attributes (expired, tampered signature). -/
structure Token where
  user_id : Nat
  purpose : String
  expired : Bool
  tampered : Bool
  deriving Repr, DecidableEq

/-- The generic 4xx failure object produced by the Token Verifier: all
failure conditions map to one response without leaking the reason. -/
def tokenFailure : Response := ⟨400, "Invalid or expired token."⟩

/-- Modelled from the spec: `stackoverflow_clone/utils/JWT_token.get_user`
is not in the source snapshot.  Per §4.1 it validates signature, expiry and
purpose, resolves the user id, and on any failure (malformed/tampered,
expired, wrong purpose, nonexistent user) returns a response-shaped failure
object rather than raising. -/
def JWT_get_user (db : List User) (expected : String) (t : Token) : TokenResult :=
  if t.tampered then .failure tokenFailure
  else if t.expired then .failure tokenFailure
  else if t.purpose ≠ expected then .failure tokenFailure
  else
    match db.find? (fun u => u.id == t.user_id) with
    | some u => .user u
    | none => .failure tokenFailure

/-- `instance.save()`: replace the row with the same id. -/
def saveUser (db : List User) (u : User) : List User :=
  db.map fun v => if v.id = u.id then u else v

/-- Abstract password hashing used by `set_password`. -/
def hashPassword (p : String) : String := "pbkdf2$" ++ p

/-- `user.set_password(new_password)` on the in-memory instance. -/
def set_password (u : User) (p : String) : User := { u with password := hashPassword p }

/-- A fresh primary key for an inserted row. -/
def freshId (db : List User) : Nat := (db.map (·.id)).foldr max 0 + 1

/-- Modelled from the spec: `users/services.register` is not in the source
snapshot.  Per §4.2 it creates an inactive `User` from the validated
username, e-mail and password. -/
def register (db : List User) (username email password : String) : User × List User :=
  let u : User := ⟨freshId db, username, email, hashPassword password, false, none⟩
  (u, db ++ [u])

/-- The `{'errors': serializer.errors}` 400 response; the error map is
abstracted to a constant body. -/
def errorsResponse : Response := ⟨400, "errors"⟩

/-- Validated payload of `UserRegisterSerializer`. -/
structure RegisterPayload where
  username : String
  email : String
  password : String
  deriving Repr, DecidableEq

/-- `UserRegisterAPI.post`.  `payload = some vd` models
`serializer.is_valid()` returning the validated data, `none` an invalid
payload.  Returns the response, the new database, and the e-mail tasks
enqueued on commit. -/
def userRegisterPost (db : List User) (payload : Option RegisterPayload) :
    Response × List User × List EmailTask :=
  match payload with
  | some vd =>
    let r := register db vd.username vd.email vd.password
    (⟨201, "We`ve sent you an activation link via email."⟩, r.2,
     [⟨vd.email, r.1.id, "verification", "Verification URL from AskTech"⟩])
  | none => (errorsResponse, db, [])

/-- `UserRegisterVerifyAPI.get`: resolve the token, 409 if already active,
otherwise set `is_active`, save, 200. -/
def userRegisterVerifyGet (db : List User) (t : Token) : Response × List User :=
  match JWT_get_user db "verification" t with
  | .failure r => (r, db)
  | .user u =>
    if u.is_active then (⟨409, "this account already is active."⟩, db)
    else (⟨200, "Account activated successfully."⟩, saveUser db { u with is_active := true })

/-- `SetPasswordAPI.post`: the token is checked before the payload is
validated; an invalid token returns the verifier's failure object directly.
`payload = some pw` models a valid `new_password`, `none` an invalid one. -/
def setPasswordPost (db : List User) (t : Token) (payload : Option String) :
    Response × List User :=
  match JWT_get_user db "reset_password" t with
  | .failure r => (r, db)
  | .user u =>
    match payload with
    | some new_password =>
      (⟨200, "Password changed successfully."⟩, saveUser db (set_password u new_password))
    | none => (errorsResponse, db)

/-- `ResetPasswordAPI.post`: look the user up by e-mail (404 if absent),
otherwise enqueue one reset-purpose e-mail task and return 202. -/
def resetPasswordPost (db : List User) (payload : Option String) :
    Response × List User × List EmailTask :=
  match payload with
  | some email =>
    match db.find? (fun u => u.email == email) with
    | none => (⟨404, "user with this Email not found."⟩, db, [])
    | some user =>
      (⟨202, "A password reset link has been sent to your email."⟩, db,
       [⟨user.email, user.id, "reset_password", "Reset Password Link:"⟩])
  | none => (errorsResponse, db, [])

/-- A refresh token: its unique id and whether it parses as structurally
valid and unexpired (`RefreshToken(...)` raising `TokenError` otherwise). -/
structure RefreshTok where
  jti : String
  valid : Bool
  deriving Repr, DecidableEq

/-- Modelled from the spec: the token library's blacklist storage is not in
the source snapshot.  Per §4.4 and §5, blacklisting marks an idempotent
terminal state (a get-or-create on the blacklist set). -/
def blacklistToken (bl : List String) (jti : String) : List String :=
  if jti ∈ bl then bl else bl ++ [jti]

/-- `BlockTokenAPI.post`: 400 on a structurally invalid or expired refresh
token, otherwise blacklist it and return the success response (status 204
with a body, as the source writes it). -/
def blockTokenPost (bl : List String) (payload : Option RefreshTok) :
    Response × List String :=
  match payload with
  | some tok =>
    if tok.valid then (⟨204, "Token blocked successfully!"⟩, blacklistToken bl tok.jti)
    else (⟨400, "The provided token is invalid or has expired."⟩, bl)
  | none => (errorsResponse, bl)

/-- `self.get_object()` of `UserProfileAPI`: look the id up in the queryset
`User.objects.filter(is_active=True)`; `none` makes the framework answer
404. -/
def getObject (db : List User) (i : Nat) : Option User :=
  (db.filter (·.is_active)).find? fun u => u.id == i

/-- The framework's 404 response for a lookup miss in the queryset. -/
def notFoundResponse : Response := ⟨404, "Not found."⟩

/-- Validated partial-update payload of `UserSerializer`: only the supplied
fields are present. -/
structure PatchPayload where
  username : Option String
  email : Option String
  deriving Repr, DecidableEq

/-- `serializer.save()` on a partial update: set exactly the supplied
fields on the instance. -/
def applyPatch (u : User) (p : PatchPayload) : User :=
  { u with username := p.username.getD u.username, email := p.email.getD u.email }

/-- Serialized representation of a user for the GET response body. -/
def serializeUser (u : User) : String := u.username ++ "," ++ u.email

/-- `UserProfileAPI` GET: retrieve by id from the active-only queryset. -/
def userProfileGet (db : List User) (i : Nat) : Response :=
  match getObject db i with
  | none => notFoundResponse
  | some u => ⟨200, serializeUser u⟩

/-- `UserProfileAPI.patch`: when the validated data contains the `email`
key, deactivate the user, save, enqueue a verification e-mail to the new
address, then `serializer.save()` the supplied fields. -/
def userProfilePatch (db : List User) (i : Nat) (payload : Option PatchPayload) :
    Response × List User × List EmailTask :=
  match getObject db i with
  | none => (notFoundResponse, db, [])
  | some user =>
    match payload with
    | none => (errorsResponse, db, [])
    | some vd =>
      if vd.email.isSome then
        let user1 := { user with is_active := false }
        (⟨200, "Updated profile successfully. A verification link has been sent to your new email address."⟩,
         saveUser (saveUser db user1) (applyPatch user1 vd),
         [⟨vd.email.getD "", user.id, "verification", "Verification URL from AskTech."⟩])
      else
        (⟨200, "Updated profile successfully."⟩, saveUser db (applyPatch user vd), [])

/-- An observable side effect of `destroy`, in execution order. -/
inductive Event where
  | bucketDelete (key : String)
  | dbDeleteRow (user_id : Nat)
  deriving Repr, DecidableEq

/-- `UserProfileAPI.destroy`: if the profile has an avatar, issue one
object-store delete call first, then delete the row (cascading the
profile). -/
def userProfileDestroy (db : List User) (i : Nat) :
    Response × List User × List Event :=
  match getObject db i with
  | none => (notFoundResponse, db, [])
  | some user =>
    let pre : List Event :=
      match user.avatar with
      | some key => [.bucketDelete key]
      | none => []
    (⟨204, ""⟩, db.filter (fun v => v.id ≠ user.id), pre ++ [.dbDeleteRow user.id])

/-- A token is invalid for the endpoint expecting purpose `expected`:
tampered signature, expired, or wrong purpose tag. -/
def invalidFor (t : Token) (expected : String) : Prop :=
  t.tampered = true ∨ t.expired = true ∨ t.purpose ≠ expected

/-- An invalid token makes the verifier return the failure object. -/
theorem jwt_get_user_invalid (db : List User) (p : String) (t : Token)
    (hp : invalidFor t p) : JWT_get_user db p t = .failure tokenFailure := by
  unfold JWT_get_user
  by_cases h1 : t.tampered = true
  · simp [h1]
  · by_cases h2 : t.expired = true
    · simp [h1, h2]
    · have h3 : t.purpose ≠ p := by
        rcases hp with h | h | h
        · exact absurd h h1
        · exact absurd h h2
        · exact h
      simp [h1, h2, h3]

/-- A user resolved by the verifier is a row of the database. -/
theorem jwt_get_user_mem (db : List User) (p : String) (t : Token) (u : User)
    (h : JWT_get_user db p t = .user u) : u ∈ db := by
  unfold JWT_get_user at h
  by_cases h1 : t.tampered = true
  · simp [h1] at h
  · by_cases h2 : t.expired = true
    · simp [h1, h2] at h
    · by_cases h3 : t.purpose = p
      · simp [h1, h2, h3] at h
        cases hf : db.find? (fun v => v.id == t.user_id) with
        | none => rw [hf] at h; exact absurd h (by simp)
        | some v =>
          rw [hf] at h
          simp at h
          exact h ▸ List.mem_of_find?_eq_some hf
      · simp [h1, h2, h3] at h

/-- Saving an updated copy of a row puts the copy in the database. -/
theorem mem_saveUser_self (db : List User) (u u_new : User) (hu : u ∈ db)
    (hid : u_new.id = u.id) : u_new ∈ saveUser db u_new := by
  unfold saveUser
  have h := List.mem_map_of_mem (fun v => if v.id = u_new.id then u_new else v) hu
  simpa [hid] using h

/-- C1: for every endpoint that consumes a verification or reset token
(account verification, set-password), a token invalid for that endpoint —
tampered, expired, or carrying the wrong purpose tag — leaves the database
unchanged and the handler returns the Token Verifier's response-shaped
failure object.  Each handler is covered under its own per-endpoint
invalidity hypothesis, so a token whose purpose tag belongs to the other
endpoint is included. -/
theorem c1_invalid_token_never_mutates (db : List User) (t : Token)
    (pw : Option String) :
    (invalidFor t "verification" →
      userRegisterVerifyGet db t = (tokenFailure, db)) ∧
    (invalidFor t "reset_password" →
      setPasswordPost db t pw = (tokenFailure, db)) := by
  constructor
  · intro h1
    unfold userRegisterVerifyGet
    rw [jwt_get_user_invalid db "verification" t h1]
  · intro h2
    unfold setPasswordPost
    rw [jwt_get_user_invalid db "reset_password" t h2]

/-- Witness for C1 at concrete cross-purpose tokens: an untampered,
unexpired reset-purpose token at the verify endpoint, and an untampered,
unexpired verification-purpose token at the set-password endpoint. -/
theorem c1_invalid_token_never_mutates_witness :
    userRegisterVerifyGet [⟨1, "alice", "a@x.com", "p", false, none⟩]
        ⟨1, "reset_password", false, false⟩ =
      (tokenFailure, [⟨1, "alice", "a@x.com", "p", false, none⟩]) ∧
    setPasswordPost [⟨1, "alice", "a@x.com", "p", false, none⟩]
        ⟨1, "verification", false, false⟩ (some "pw") =
      (tokenFailure, [⟨1, "alice", "a@x.com", "p", false, none⟩]) :=
  ⟨(c1_invalid_token_never_mutates [⟨1, "alice", "a@x.com", "p", false, none⟩]
      ⟨1, "reset_password", false, false⟩ (some "pw")).1
      (Or.inr (Or.inr (by decide))),
   (c1_invalid_token_never_mutates [⟨1, "alice", "a@x.com", "p", false, none⟩]
      ⟨1, "verification", false, false⟩ (some "pw")).2
      (Or.inr (Or.inr (by decide)))⟩

/-- C2: for a user resolved from a valid verification token, the verify
operation activates and persists an inactive user and returns 200, and
returns 409 without mutating the database when the user is already
active. -/
theorem c2_verify_activates_once (db : List User) (t : Token) (u : User)
    (h : JWT_get_user db "verification" t = .user u) :
    (u.is_active = false →
      userRegisterVerifyGet db t =
        (⟨200, "Account activated successfully."⟩, saveUser db { u with is_active := true }) ∧
      { u with is_active := true } ∈ saveUser db { u with is_active := true }) ∧
    (u.is_active = true →
      userRegisterVerifyGet db t = (⟨409, "this account already is active."⟩, db)) := by
  have hmem : u ∈ db := jwt_get_user_mem db "verification" t u h
  constructor
  · intro hin
    constructor
    · unfold userRegisterVerifyGet
      rw [h]
      simp [hin]
    · exact mem_saveUser_self db u { u with is_active := true } hmem rfl
  · intro hact
    unfold userRegisterVerifyGet
    rw [h]
    simp [hact]

/-- Witness for C2: an inactive user activated by a valid token, and the
same now-active user getting 409. -/
theorem c2_verify_activates_once_witness :
    (userRegisterVerifyGet [⟨1, "alice", "a@x.com", "p", false, none⟩]
        ⟨1, "verification", false, false⟩ =
      (⟨200, "Account activated successfully."⟩,
       saveUser [⟨1, "alice", "a@x.com", "p", false, none⟩]
         ⟨1, "alice", "a@x.com", "p", true, none⟩) ∧
     (⟨1, "alice", "a@x.com", "p", true, none⟩ : User) ∈
       saveUser [⟨1, "alice", "a@x.com", "p", false, none⟩]
         ⟨1, "alice", "a@x.com", "p", true, none⟩) ∧
    userRegisterVerifyGet [⟨1, "alice", "a@x.com", "p", true, none⟩]
        ⟨1, "verification", false, false⟩ =
      (⟨409, "this account already is active."⟩,
       [⟨1, "alice", "a@x.com", "p", true, none⟩]) :=
  ⟨(c2_verify_activates_once [⟨1, "alice", "a@x.com", "p", false, none⟩]
      ⟨1, "verification", false, false⟩ ⟨1, "alice", "a@x.com", "p", false, none⟩
      (by decide)).1 rfl,
   (c2_verify_activates_once [⟨1, "alice", "a@x.com", "p", true, none⟩]
      ⟨1, "verification", false, false⟩ ⟨1, "alice", "a@x.com", "p", true, none⟩
      (by decide)).2 rfl⟩

/-- C9: in set-password, token validation takes precedence over payload
validation: an invalid token returns the verifier's failure response for
every payload, valid or not, and leaves the database (hence every password
field) unchanged. -/
theorem c9_token_precedes_payload (db : List User) (t : Token) (r : Response)
    (h : JWT_get_user db "reset_password" t = .failure r)
    (payload : Option String) :
    setPasswordPost db t payload = (r, db) := by
  unfold setPasswordPost
  rw [h]

/-- Witness for C9 at a tampered token and an invalid payload. -/
theorem c9_token_precedes_payload_witness :
    setPasswordPost [⟨1, "alice", "a@x.com", "p", true, none⟩]
      ⟨1, "reset_password", false, true⟩ none =
    (tokenFailure, [⟨1, "alice", "a@x.com", "p", true, none⟩]) :=
  c9_token_precedes_payload [⟨1, "alice", "a@x.com", "p", true, none⟩]
    ⟨1, "reset_password", false, true⟩ tokenFailure rfl none

/-- C3: every valid registration payload creates a User with
`is_active = false`, returns 201 with the generic instructional message,
and enqueues exactly one verification e-mail task on commit. -/
theorem c3_register_creates_inactive (db : List User) (vd : RegisterPayload) :
    ∃ u : User,
      userRegisterPost db (some vd) =
        (⟨201, "We`ve sent you an activation link via email."⟩, db ++ [u],
         [⟨vd.email, u.id, "verification", "Verification URL from AskTech"⟩]) ∧
      u.is_active = false ∧ u.email = vd.email ∧ u.username = vd.username :=
  ⟨⟨freshId db, vd.username, vd.email, hashPassword vd.password, false, none⟩,
   rfl, rfl, rfl, rfl⟩

/-- C4: a valid profile PATCH whose payload contains a (new) e-mail value
deactivates the user, dispatches one verification e-mail to the new
address, and still saves the other supplied fields. -/
theorem c4_email_change_deactivates (db : List User) (i : Nat)
    (vd : PatchPayload) (u : User) (e : String)
    (hu : getObject db i = some u) (he : vd.email = some e) :
    userProfilePatch db i (some vd) =
      (⟨200, "Updated profile successfully. A verification link has been sent to your new email address."⟩,
       saveUser (saveUser db { u with is_active := false })
         (applyPatch { u with is_active := false } vd),
       [⟨e, u.id, "verification", "Verification URL from AskTech."⟩]) ∧
    (applyPatch { u with is_active := false } vd).is_active = false ∧
    (applyPatch { u with is_active := false } vd).username = vd.username.getD u.username ∧
    (applyPatch { u with is_active := false } vd).email = e := by
  unfold userProfilePatch
  rw [hu]
  simp [he, applyPatch]

/-- Witness for C4: PATCH with a new e-mail and a new username. -/
theorem c4_email_change_deactivates_witness :
    userProfilePatch [⟨1, "alice", "a@x.com", "p", true, none⟩] 1
        (some ⟨some "bob", some "b@y.com"⟩) =
      (⟨200, "Updated profile successfully. A verification link has been sent to your new email address."⟩,
       saveUser (saveUser [⟨1, "alice", "a@x.com", "p", true, none⟩]
           ⟨1, "alice", "a@x.com", "p", false, none⟩)
         (applyPatch ⟨1, "alice", "a@x.com", "p", false, none⟩ ⟨some "bob", some "b@y.com"⟩),
       [⟨"b@y.com", 1, "verification", "Verification URL from AskTech."⟩]) ∧
    (applyPatch ⟨1, "alice", "a@x.com", "p", false, none⟩
        (⟨some "bob", some "b@y.com"⟩ : PatchPayload)).is_active = false ∧
    (applyPatch ⟨1, "alice", "a@x.com", "p", false, none⟩
        (⟨some "bob", some "b@y.com"⟩ : PatchPayload)).username = "bob" ∧
    (applyPatch ⟨1, "alice", "a@x.com", "p", false, none⟩
        (⟨some "bob", some "b@y.com"⟩ : PatchPayload)).email = "b@y.com" :=
  c4_email_change_deactivates [⟨1, "alice", "a@x.com", "p", true, none⟩] 1
    ⟨some "bob", some "b@y.com"⟩ ⟨1, "alice", "a@x.com", "p", true, none⟩ "b@y.com"
    (by decide) rfl

/-- C10: the deactivation-and-reverification side effect fires on presence
of the `email` key in the validated payload, even when the supplied value
equals the user's current e-mail. -/
theorem c10_trigger_is_key_presence (db : List User) (i : Nat)
    (vd : PatchPayload) (u : User)
    (hu : getObject db i = some u) (he : vd.email = some u.email) :
    userProfilePatch db i (some vd) =
      (⟨200, "Updated profile successfully. A verification link has been sent to your new email address."⟩,
       saveUser (saveUser db { u with is_active := false })
         (applyPatch { u with is_active := false } vd),
       [⟨u.email, u.id, "verification", "Verification URL from AskTech."⟩]) ∧
    (applyPatch { u with is_active := false } vd).email = u.email ∧
    (applyPatch { u with is_active := false } vd).is_active = false := by
  unfold userProfilePatch
  rw [hu]
  simp [he, applyPatch]

/-- Witness for C10: PATCH whose e-mail value equals the current one still
deactivates and dispatches the verification e-mail. -/
theorem c10_trigger_is_key_presence_witness :
    userProfilePatch [⟨1, "alice", "a@x.com", "p", true, none⟩] 1
        (some ⟨none, some "a@x.com"⟩) =
      (⟨200, "Updated profile successfully. A verification link has been sent to your new email address."⟩,
       saveUser (saveUser [⟨1, "alice", "a@x.com", "p", true, none⟩]
           ⟨1, "alice", "a@x.com", "p", false, none⟩)
         (applyPatch ⟨1, "alice", "a@x.com", "p", false, none⟩ ⟨none, some "a@x.com"⟩),
       [⟨"a@x.com", 1, "verification", "Verification URL from AskTech."⟩]) ∧
    (applyPatch ⟨1, "alice", "a@x.com", "p", false, none⟩
        (⟨none, some "a@x.com"⟩ : PatchPayload)).email = "a@x.com" ∧
    (applyPatch ⟨1, "alice", "a@x.com", "p", false, none⟩
        (⟨none, some "a@x.com"⟩ : PatchPayload)).is_active = false :=
  c10_trigger_is_key_presence [⟨1, "alice", "a@x.com", "p", true, none⟩] 1
    ⟨none, some "a@x.com"⟩ ⟨1, "alice", "a@x.com", "p", true, none⟩
    (by decide) rfl

/-- C5: reset-password returns 404 when no user has the given e-mail, and
202 with exactly one reset-purpose e-mail task when one does. -/
theorem c5_reset_password_disclosure (db : List User) (email : String) :
    ((∀ u ∈ db, u.email ≠ email) →
      resetPasswordPost db (some email) =
        (⟨404, "user with this Email not found."⟩, db, [])) ∧
    (∀ u : User, db.find? (fun v => v.email == email) = some u →
      resetPasswordPost db (some email) =
        (⟨202, "A password reset link has been sent to your email."⟩, db,
         [⟨u.email, u.id, "reset_password", "Reset Password Link:"⟩])) := by
  constructor
  · intro h
    have hf : db.find? (fun v => v.email == email) = none := by
      apply List.find?_eq_none.mpr
      intro v hv
      simpa using h v hv
    simp [resetPasswordPost, hf]
  · intro u hu
    simp [resetPasswordPost, hu]

/-- Witness for C5: unknown e-mail on an empty database, known e-mail on a
singleton one. -/
theorem c5_reset_password_disclosure_witness :
    resetPasswordPost [] (some "a@x.com") =
      (⟨404, "user with this Email not found."⟩, [], []) ∧
    resetPasswordPost [⟨1, "alice", "a@x.com", "p", true, none⟩] (some "a@x.com") =
      (⟨202, "A password reset link has been sent to your email."⟩,
       [⟨1, "alice", "a@x.com", "p", true, none⟩],
       [⟨"a@x.com", 1, "reset_password", "Reset Password Link:"⟩]) :=
  ⟨(c5_reset_password_disclosure [] "a@x.com").1 (by simp),
   (c5_reset_password_disclosure [⟨1, "alice", "a@x.com", "p", true, none⟩] "a@x.com").2
     ⟨1, "alice", "a@x.com", "p", true, none⟩ (by decide)⟩

/-- Blacklisting the same token id twice equals blacklisting it once. -/
theorem blacklistToken_idem (bl : List String) (j : String) :
    blacklistToken (blacklistToken bl j) j = blacklistToken bl j := by
  unfold blacklistToken
  by_cases hm : j ∈ bl
  · simp [hm]
  · simp [hm]

/-- A blacklisted token id is in the blacklist. -/
theorem mem_blacklistToken (bl : List String) (j : String) :
    j ∈ blacklistToken bl j := by
  unfold blacklistToken
  by_cases hm : j ∈ bl
  · simp [hm]
  · simp [hm]

/-- C6: blacklisting a valid refresh token is idempotent: the second call
returns the same success response, the blacklist state is the same as after
one call, and the token is rejected (in the blacklist). -/
theorem c6_blacklist_idempotent (bl : List String) (tok : RefreshTok)
    (h : tok.valid = true) :
    blockTokenPost (blockTokenPost bl (some tok)).2 (some tok) =
      ((⟨204, "Token blocked successfully!"⟩ : Response),
       (blockTokenPost bl (some tok)).2) ∧
    tok.jti ∈ (blockTokenPost bl (some tok)).2 := by
  constructor
  · unfold blockTokenPost
    simp [h, blacklistToken_idem]
  · unfold blockTokenPost
    simp [h, mem_blacklistToken]

/-- Witness for C6 at a concrete valid refresh token. -/
theorem c6_blacklist_idempotent_witness :
    blockTokenPost (blockTokenPost [] (some ⟨"jti1", true⟩)).2 (some ⟨"jti1", true⟩) =
      ((⟨204, "Token blocked successfully!"⟩ : Response),
       (blockTokenPost [] (some ⟨"jti1", true⟩)).2) ∧
    "jti1" ∈ (blockTokenPost [] (some ⟨"jti1", true⟩)).2 :=
  c6_blacklist_idempotent [] ⟨"jti1", true⟩ rfl

/-- C7: deleting an account whose profile has an avatar issues exactly one
object-store delete call, before the row delete; with no avatar, it issues
none. -/
theorem c7_destroy_avatar_cleanup (db : List User) (i : Nat) (u : User)
    (hu : getObject db i = some u) :
    (∀ k : String, u.avatar = some k →
      userProfileDestroy db i =
        (⟨204, ""⟩, db.filter (fun v => v.id ≠ u.id),
         [Event.bucketDelete k, Event.dbDeleteRow u.id])) ∧
    (u.avatar = none →
      userProfileDestroy db i =
        (⟨204, ""⟩, db.filter (fun v => v.id ≠ u.id), [Event.dbDeleteRow u.id])) := by
  constructor
  · intro k hk
    unfold userProfileDestroy
    rw [hu]
    simp [hk]
  · intro hk
    unfold userProfileDestroy
    rw [hu]
    simp [hk]

/-- Witness for C7: one delete for a user with an avatar, zero for one
without. -/
theorem c7_destroy_avatar_cleanup_witness :
    userProfileDestroy [⟨1, "alice", "a@x.com", "p", true, some "avatars/k1"⟩] 1 =
      ((⟨204, ""⟩ : Response), [],
       [Event.bucketDelete "avatars/k1", Event.dbDeleteRow 1]) ∧
    userProfileDestroy [⟨2, "bob", "b@y.com", "p", true, none⟩] 2 =
      ((⟨204, ""⟩ : Response), [], [Event.dbDeleteRow 2]) :=
  ⟨(c7_destroy_avatar_cleanup [⟨1, "alice", "a@x.com", "p", true, some "avatars/k1"⟩] 1
      ⟨1, "alice", "a@x.com", "p", true, some "avatars/k1"⟩ (by decide)).1
      "avatars/k1" rfl,
   (c7_destroy_avatar_cleanup [⟨2, "bob", "b@y.com", "p", true, none⟩] 2
      ⟨2, "bob", "b@y.com", "p", true, none⟩ (by decide)).2 rfl⟩

/-- C8: for a user with `is_active = false`, GET, PATCH and DELETE on the
profile endpoint all answer 404 and change nothing, because the endpoint's
queryset is restricted to active users. -/
theorem c8_inactive_profile_404 (db : List User) (i : Nat) (u : User)
    (hu : u ∈ db) (hid : u.id = i) (hin : u.is_active = false)
    (huniq : ∀ v ∈ db, v.id = i → v = u) :
    userProfileGet db i = notFoundResponse ∧
    (∀ p : Option PatchPayload,
      userProfilePatch db i p = (notFoundResponse, db, [])) ∧
    userProfileDestroy db i = (notFoundResponse, db, []) := by
  have hobj : getObject db i = none := by
    unfold getObject
    apply List.find?_eq_none.mpr
    intro v hv
    simp only [beq_iff_eq]
    intro hvi
    have hvdb : v ∈ db := List.mem_of_mem_filter hv
    have hact : v.is_active = true := by simpa using List.of_mem_filter hv
    rw [huniq v hvdb hvi] at hact
    rw [hin] at hact
    exact Bool.false_ne_true hact
  refine ⟨?_, ?_, ?_⟩
  · unfold userProfileGet
    rw [hobj]
  · intro p
    unfold userProfilePatch
    rw [hobj]
  · unfold userProfileDestroy
    rw [hobj]

/-- Witness for C8: every method of the profile endpoint answers 404 for a
concrete inactive user. -/
theorem c8_inactive_profile_404_witness :
    userProfileGet [⟨1, "alice", "a@x.com", "p", false, none⟩] 1 = notFoundResponse ∧
    userProfilePatch [⟨1, "alice", "a@x.com", "p", false, none⟩] 1
        (some ⟨some "bob", none⟩) =
      (notFoundResponse, [⟨1, "alice", "a@x.com", "p", false, none⟩], []) ∧
    userProfileDestroy [⟨1, "alice", "a@x.com", "p", false, none⟩] 1 =
      (notFoundResponse, [⟨1, "alice", "a@x.com", "p", false, none⟩], []) := by
  have h := c8_inactive_profile_404 [⟨1, "alice", "a@x.com", "p", false, none⟩] 1
    ⟨1, "alice", "a@x.com", "p", false, none⟩ (by simp) rfl rfl
    (by intro v hv hvi; simpa using hv)
  exact ⟨h.1, h.2.1 (some ⟨some "bob", none⟩), h.2.2⟩

end StackOverflowClone
